import Mathlib

/-!
Shallow embedding of the CLFleadservice data-access layer:
the ArcGIS OAuth authentication service (src/services/arcgis/auth.ts),
the material classifier and filter-clause builder together with the
feature query client (src/components/DashboardsIntegrated.tsx, which
inlines src/services/arcgis/featureService.ts), the client-side address
filter of the dashboard, and the geocoder (src/services/arcgis/geocoding.ts).

JavaScript values that matter to control flow (truthiness of strings and
numbers, strict equality on heterogeneous values) are modelled explicitly:
`Option String` for `string | null | undefined` fields with the empty
string kept distinct (it is falsy in JS), and a small `JSVal` type for
attributes compared with `===`.  Network effects are modelled by passing
the outcome of the single `fetch` of each operation as an explicit
argument; the request each operation would issue is returned alongside
its result so that claims about issued requests are statable.
-/

namespace LeadService

/-- A JavaScript runtime value, as needed for attribute fields compared
with strict equality (`LetterSent === 1 || LetterSent === true`). -/
inductive JSVal where
  | undef
  | null
  | num (n : Int)
  | boolv (b : Bool)
  | str (s : String)
deriving DecidableEq

/-- JS truthiness of a `string | null | undefined` value:
`null`, `undefined` and the empty string are falsy. -/
def strTruthy : Option String → Bool
  | none => false
  | some s => s ≠ ""

/-- JS `a || d` for a `string | null | undefined` value `a` and a string
default `d`. -/
def jsStrOr (v : Option String) (d : String) : String :=
  match v with
  | none => d
  | some s => if s = "" then d else s

/-- JS `s.toLowerCase()` (ASCII range), written over the character list so
that it evaluates by kernel reduction. -/
def jsToLower (s : String) : String :=
  String.mk (s.data.map Char.toLower)

/-- JS truthiness of a `number | null | undefined` value:
`null`, `undefined` and `0` are falsy (NaN is not modelled). -/
def numTruthy : Option Int → Bool
  | none => false
  | some n => n ≠ 0

/-! ## Authorization session (src/services/arcgis/auth.ts) -/

/-- The four private fields of `ArcGISAuthService`. -/
structure AuthState where
  accessToken : Option String
  refreshToken : Option String
  tokenExpiry : Option Int
  codeVerifier : Option String
deriving DecidableEq

/-- Field initialisers of `ArcGISAuthService`: every field starts `null`. -/
def AuthState.init : AuthState :=
  { accessToken := none, refreshToken := none, tokenExpiry := none,
    codeVerifier := none }

/-- The slice of `sessionStorage` the service touches. -/
structure SessionStore where
  pkceVerifier : Option String
  authRedirect : Option String
deriving DecidableEq

/-- `isAuthenticated()`: `if (!this.accessToken || !this.tokenExpiry) return
false; return Date.now() < this.tokenExpiry;`.  `now` stands for
`Date.now()`. -/
def isAuthenticated (st : AuthState) (now : Int) : Bool :=
  if !strTruthy st.accessToken || !numTruthy st.tokenExpiry then
    false
  else
    match st.tokenExpiry with
    | some e => now < e
    | none => false

/-- `getAccessToken()`: the token while authenticated, else `null`. -/
def getAccessToken (st : AuthState) (now : Int) : Option String :=
  if isAuthenticated st now then st.accessToken else none

/-- `logout()`: clears the four credential fields and both session keys. -/
def logout (_st : AuthState) (_sess : SessionStore) : AuthState × SessionStore :=
  ({ accessToken := none, refreshToken := none, tokenExpiry := none,
     codeVerifier := none },
   { pkceVerifier := none, authRedirect := none })

/-- The known code lists of the classifier, lowercased as in the source. -/
def leadCodes : List String := ["lead", "pb", "l"]

def copperCodes : List String := ["copper", "cu"]

def galvCodes : List String := ["galv", "galvanized"]

def unknownCodes : List String := ["unknown", "unk", "u", ""]

/-- `MATERIAL_LABEL(code)`: `null`/`undefined` and the unknown codes map to
"Not determined"; the known codes map (case-insensitively) to canonical
labels; anything else is returned unchanged. -/
def MATERIAL_LABEL (code : Option String) : String :=
  match code with
  | none => "Not determined"
  | some c =>
    let v := jsToLower c
    if leadCodes.contains v then "Lead"
    else if copperCodes.contains v then "Copper"
    else if galvCodes.contains v then "Galvanized Steel"
    else if unknownCodes.contains v then "Not determined"
    else c

/-- The classification outcome of `MATERIAL_LABEL` on a present string,
separated from the returned label so that case-insensitivity of the
matching is statable. -/
inductive MaterialClass where
  | lead
  | copper
  | galv
  | notDetermined
  | passThrough
deriving DecidableEq

/-- Which branch of `MATERIAL_LABEL` a present string takes. -/
def materialClassOf (c : String) : MaterialClass :=
  let v := jsToLower c
  if leadCodes.contains v then .lead
  else if copperCodes.contains v then .copper
  else if galvCodes.contains v then .galv
  else if unknownCodes.contains v then .notDetermined
  else .passThrough

/-! ## Filter clause builder (buildWhereClause) -/

/-- The `material` field of `FilterOptions`: `"all" | "lead" | "unknown"`. -/
inductive MaterialFilter where
  | all
  | lead
  | unknown
deriving DecidableEq

/-- `FilterOptions` (src/services/types.ts). -/
structure FilterOptions where
  material : MaterialFilter
  showCustomer : Bool
  showSupplier : Bool
  status : Option (List String)
deriving DecidableEq

/-- The single-quote character, written by code point to keep source
strings free of quote glyphs. -/
def sq : String := String.singleton (Char.ofNat 39)

/-- The material clause pushed for the `"lead"` selection. -/
def leadClause : String :=
  "(CustomerMaterial = " ++ sq ++ "Lead" ++ sq ++
    " OR SupplierMaterial = " ++ sq ++ "Lead" ++ sq ++ ")"

/-- The material clause pushed for the `"unknown"` selection. -/
def unknownClause : String :=
  "(CustomerMaterial = " ++ sq ++ "Unknown" ++ sq ++
    " OR SupplierMaterial = " ++ sq ++ "Unknown" ++ sq ++ ")"

/-- The status clause: `Status IN ('a','b',...)` over the literal list. -/
def statusClause (l : List String) : String :=
  "Status IN (" ++ String.intercalate "," (l.map fun s => sq ++ s ++ sq) ++ ")"

/-- `buildWhereClause(filters)`: pushes an optional material clause and an
optional status clause, joins with `" AND "`, and falls back to `"1=1"`. -/
def buildWhereClause (filters : FilterOptions) : String :=
  let conditions : List String :=
    (match filters.material with
     | .lead => [leadClause]
     | .unknown => [unknownClause]
     | .all => []) ++
    (match filters.status with
     | some l => if l.length > 0 then [statusClause l] else []
     | none => [])
  if conditions.length > 0 then String.intercalate " AND " conditions else "1=1"

/-! ## Feature query client (featureService, inlined in
DashboardsIntegrated.tsx) -/

/-- Point geometry of a raw feature (coordinates as rationals). -/
structure Geometry where
  x : Rat
  y : Rat
deriving DecidableEq

/-- The raw attribute bag of a dataset feature, with fields that may be
absent modelled as `Option` and `LetterSent` as a raw JS value. -/
structure FeatureAttrs where
  OBJECTID : Int
  Address : Option String
  CustomerMaterial : Option String
  SupplierMaterial : Option String
  YearBuilt : Option Int
  Status : Option String
  LetterSent : JSVal
deriving DecidableEq

/-- A raw dataset feature: attributes plus optional geometry. -/
structure Feature where
  attributes : FeatureAttrs
  geometry : Option Geometry
deriving DecidableEq

/-- The application `Location` record (src/services/types.ts). -/
structure Location where
  id : Int
  address : String
  customerMaterial : String
  supplierMaterial : String
  letterSent : Bool
  buildYear : Int
  status : String
  lat : Rat
  lng : Rat
deriving DecidableEq

/-- `featureToLocation(feature)`: total transformation with JS `||`
defaults and `LetterSent === 1 || LetterSent === true`. -/
def featureToLocation (f : Feature) : Location :=
  { id := f.attributes.OBJECTID,
    address := jsStrOr f.attributes.Address "Unknown Address",
    customerMaterial := jsStrOr f.attributes.CustomerMaterial "Unknown",
    supplierMaterial := jsStrOr f.attributes.SupplierMaterial "Unknown",
    letterSent := f.attributes.LetterSent == JSVal.num 1 ||
      f.attributes.LetterSent == JSVal.boolv true,
    buildYear := f.attributes.YearBuilt.getD 0,
    status := jsStrOr f.attributes.Status "UNKNOWN",
    lat := match f.geometry with | some g => g.y | none => 0,
    lng := match f.geometry with | some g => g.x | none => 0 }

/-- Parsed JSON body of a feature-service response: either an `error`
member or a `features` array. -/
inductive QueryBody where
  | err (msg : String)
  | feats (fs : List Feature)
deriving DecidableEq

/-- Outcome of the single `fetch` of a query operation: the fetch (or body
read) throws, or a response arrives with an `ok` flag and a body. -/
inductive QueryFetch where
  | netFail (msg : String)
  | resp (ok : Bool) (body : QueryBody)
deriving DecidableEq

/-- The request a query operation issues against the feature service, as
far as the claims need it: the predicate and the optional token. -/
structure QueryRequest where
  whereClause : String
  token : Option String
deriving DecidableEq

/-- `queryFeatures(filters)`: builds the predicate, attaches the token from
`authService.getAccessToken()` when present, checks `response.ok`, then the
`error` member, then maps `featureToLocation`; every failure is rethrown. -/
def queryFeatures (st : AuthState) (now : Int) (filters : FilterOptions)
    (outcome : QueryFetch) : QueryRequest × Except String (List Location) :=
  let req : QueryRequest :=
    { whereClause := buildWhereClause filters, token := getAccessToken st now }
  (req,
    match outcome with
    | .netFail m => .error m
    | .resp ok body =>
      if !ok then .error "Feature service query failed"
      else
        match body with
        | .err m => .error ("ArcGIS Error: " ++ m)
        | .feats fs => .ok (fs.map featureToLocation))

/-- `queryFeatureById(objectId)`: no `response.ok` check; an `error` member
throws, the catch swallows every throw to `null`; otherwise the first
feature, if any, is converted. -/
def queryFeatureById (st : AuthState) (now : Int) (objectId : Int)
    (outcome : QueryFetch) : QueryRequest × Option Location :=
  let req : QueryRequest :=
    { whereClause := "OBJECTID = " ++ toString objectId,
      token := getAccessToken st now }
  (req,
    match outcome with
    | .netFail _ => none
    | .resp _ body =>
      match body with
      | .err _ => none
      | .feats fs => fs.head?.map featureToLocation)

/-- `queryFeaturesInExtent(extent, filters)`: no `response.ok` check; an
`error` member throws and the catch rethrows, so every failure
propagates. -/
def queryFeaturesInExtent (st : AuthState) (now : Int)
    (filters : FilterOptions) (outcome : QueryFetch) :
    QueryRequest × Except String (List Location) :=
  let req : QueryRequest :=
    { whereClause := buildWhereClause filters, token := getAccessToken st now }
  (req,
    match outcome with
    | .netFail m => .error m
    | .resp _ body =>
      match body with
      | .err m => .error ("ArcGIS Error: " ++ m)
      | .feats fs => .ok (fs.map featureToLocation))

/-- The stats object returned by `getFeatureStats`. -/
structure FeatureStats where
  total : Nat
  lead : Nat
  unknown : Nat
  verified : Nat
  assumed : Nat
deriving DecidableEq

/-- The all-zero stats object returned on any failure. -/
def zeroStats : FeatureStats :=
  { total := 0, lead := 0, unknown := 0, verified := 0, assumed := 0 }

/-- Either-side-lead test of `getFeatureStats`
(`CustomerMaterial === "Lead" || SupplierMaterial === "Lead"`). -/
def isLeadFeature (f : Feature) : Bool :=
  f.attributes.CustomerMaterial == some "Lead" ||
    f.attributes.SupplierMaterial == some "Lead"

/-- Either-side-unknown test of `getFeatureStats`. -/
def isUnknownFeature (f : Feature) : Bool :=
  f.attributes.CustomerMaterial == some "Unknown" ||
    f.attributes.SupplierMaterial == some "Unknown"

/-- `getFeatureStats()`: fetches all features with `where=1=1`, counts
client-side over the full result set; any throw is swallowed to the
all-zero stats object. -/
def getFeatureStats (st : AuthState) (now : Int) (outcome : QueryFetch) :
    QueryRequest × FeatureStats :=
  let req : QueryRequest :=
    { whereClause := "1=1", token := getAccessToken st now }
  (req,
    match outcome with
    | .netFail _ => zeroStats
    | .resp _ body =>
      match body with
      | .err _ => zeroStats
      | .feats fs =>
        { total := fs.length,
          lead := (fs.filter isLeadFeature).length,
          unknown := (fs.filter isUnknownFeature).length,
          verified := (fs.filter
            (fun f => f.attributes.Status == some "VERIFIED")).length,
          assumed := (fs.filter
            (fun f => f.attributes.Status == some "ASSUMED")).length })

/-! ## Client-side address filter (DashboardsIntegrated.tsx,
filteredLocations) -/

/-- Boolean list-prefix test on characters. -/
def isPrefB : List Char → List Char → Bool
  | [], _ => true
  | _ :: _, [] => false
  | a :: as, b :: bs => a = b && isPrefB as bs

/-- Boolean contiguous-sublist test on characters. -/
def hasSubList (l p : List Char) : Bool :=
  l.tails.any (fun t => isPrefB p t)

/-- JS `s.includes(sub)`: substring containment. -/
def jsIncludes (s sub : String) : Bool :=
  hasSubList s.toList sub.toList

/-- The dashboard's client-side narrowing: drop a location iff the search
term is truthy and the lowercased address does not contain the lowercased
term. -/
def filteredLocations (searchTerm : String) (locations : List Location) :
    List Location :=
  locations.filter fun loc =>
    if searchTerm ≠ "" &&
        !jsIncludes (jsToLower loc.address) (jsToLower searchTerm)
    then false else true

/-! ## Geocoder (src/services/arcgis/geocoding.ts, geocodeAddress) -/

/-- A coordinate pair. -/
structure GeoPoint where
  x : Rat
  y : Rat
deriving DecidableEq

/-- The configured default map center, `arcgisConfig.map.center`
(`[-87.8, 42.1]`). -/
def defaultCenter : GeoPoint :=
  { x := -878 / 10, y := 421 / 10 }

/-- A provider candidate, already holding the fields `geocodeAddress`
reads. -/
structure Candidate where
  address : String
  location : GeoPoint
  score : Rat
  attributes : List (String × JSVal)
deriving DecidableEq

/-- The application-facing geocode result. -/
structure GeocodeResult where
  address : String
  location : GeoPoint
  score : Rat
  attributes : List (String × JSVal)
deriving DecidableEq

/-- The per-candidate mapping inside `geocodeAddress`. -/
def candidateToResult (c : Candidate) : GeocodeResult :=
  { address := c.address,
    location := { x := c.location.x, y := c.location.y },
    score := c.score,
    attributes := c.attributes }

/-- Parsed JSON body of a geocoding response. -/
inductive GeoBody where
  | err (msg : String)
  | cands (cs : List Candidate)
deriving DecidableEq

/-- Outcome of the single `fetch` of `geocodeAddress`. -/
inductive GeoFetch where
  | netFail (msg : String)
  | resp (ok : Bool) (body : GeoBody)
deriving DecidableEq

/-- The request `geocodeAddress` issues, as far as the claims need it:
the search line, the `maxLocations` cap, and the bias point. -/
structure GeocodeRequest where
  singleLine : String
  maxLocations : Nat
  location : GeoPoint
deriving DecidableEq

/-- `geocodeAddress(searchText, center?)`: below 3 characters returns `[]`
before building any request; otherwise issues a request capped at 10
candidates biased to `center` or the configured default; every failure
(thrown fetch, non-ok response, `error` member) is caught to `[]`. -/
def geocodeAddress (searchText : String) (center : Option GeoPoint)
    (outcome : GeoFetch) : Option GeocodeRequest × List GeocodeResult :=
  if searchText = "" || searchText.length < 3 then
    (none, [])
  else
    let req : GeocodeRequest :=
      { singleLine := searchText, maxLocations := 10,
        location := center.getD defaultCenter }
    (some req,
      match outcome with
      | .netFail _ => []
      | .resp ok body =>
        if !ok then []
        else
          match body with
          | .err _ => []
          | .cands cs => cs.map candidateToResult)

/-! ## Semantics of the emitted predicate language

`buildWhereClause` emits strings of a small fragment of the feature
service's SQL dialect: the constant `1=1`, a parenthesised disjunction of
two equality comparisons, an `IN` clause over string literals, and
`" AND "`-joins of these.  To state what a predicate string means on a
dataset row, that fragment is given a parser and an evaluator. -/

/-- The single-quote character of the predicate language. -/
def qc : Char := Char.ofNat 39

/-- A conjunct of the emitted predicate language. -/
inductive WExpr where
  | true1
  | orEq (f1 l1 f2 l2 : String)
  | inList (f : String) (ls : List String)
deriving DecidableEq

/-- Field lookup on a dataset row (a `NULL` field yields `none`). -/
def getFieldVal (r : FeatureAttrs) (name : String) : Option String :=
  if name = "CustomerMaterial" then r.CustomerMaterial
  else if name = "SupplierMaterial" then r.SupplierMaterial
  else if name = "Status" then r.Status
  else none

/-- SQL-style evaluation of one conjunct on a row: comparisons with a
`NULL` field are false. -/
def evalW (r : FeatureAttrs) : WExpr → Bool
  | .true1 => true
  | .orEq f1 l1 f2 l2 =>
    (getFieldVal r f1 == some l1) || (getFieldVal r f2 == some l2)
  | .inList f ls =>
    match getFieldVal r f with
    | some v => ls.contains v
    | none => false

/-- Consume an expected literal character sequence. -/
def dropLit : List Char → List Char → Option (List Char)
  | [], cs => some cs
  | p :: ps, c :: cs => if c = p then dropLit ps cs else none
  | _ :: _, [] => none

/-- Consume a maximal run of letters. -/
def takeIdent (cs : List Char) : String × List Char :=
  let p := cs.span (fun c => c.isAlpha)
  (String.mk p.1, p.2)

/-- Consume a quoted string literal. -/
def takeQuoted (cs : List Char) : Option (String × List Char) :=
  match cs with
  | c :: rest =>
    if c = qc then
      let p := rest.span (fun ch => ch ≠ qc)
      match p.2 with
      | c2 :: rest2 => if c2 = qc then some (String.mk p.1, rest2) else none
      | [] => none
    else none
  | [] => none

/-- Consume one equality comparison `field = 'lit'`. -/
def takeCmp (cs : List Char) : Option ((String × String) × List Char) :=
  let p := takeIdent cs
  if p.1 = "" then none
  else
    match dropLit " = ".toList p.2 with
    | none => none
    | some cs2 =>
      match takeQuoted cs2 with
      | none => none
      | some (l, cs3) => some ((p.1, l), cs3)

/-- Consume a comma-separated list of quoted literals (fuel-bounded). -/
def takeLitList : Nat → List Char → Option (List String × List Char)
  | 0, _ => none
  | fuel + 1, cs =>
    match takeQuoted cs with
    | none => none
    | some (l, cs1) =>
      match cs1 with
      | ',' :: cs2 =>
        match takeLitList fuel cs2 with
        | some (ls, cs3) => some (l :: ls, cs3)
        | none => none
      | _ => some ([l], cs1)

/-- Consume one primary conjunct. -/
def takePrimary (cs : List Char) : Option (WExpr × List Char) :=
  match dropLit "1=1".toList cs with
  | some rest => some (.true1, rest)
  | none =>
    match cs with
    | '(' :: cs1 =>
      match takeCmp cs1 with
      | none => none
      | some ((f1, l1), cs2) =>
        match dropLit " OR ".toList cs2 with
        | none => none
        | some cs3 =>
          match takeCmp cs3 with
          | none => none
          | some ((f2, l2), cs4) =>
            match cs4 with
            | ')' :: cs5 => some (.orEq f1 l1 f2 l2, cs5)
            | _ => none
    | _ =>
      let p := takeIdent cs
      if p.1 = "" then none
      else
        match dropLit " IN (".toList p.2 with
        | none => none
        | some cs2 =>
          match takeLitList (cs2.length + 1) cs2 with
          | none => none
          | some (ls, cs3) =>
            match cs3 with
            | ')' :: cs4 => some (.inList p.1 ls, cs4)
            | _ => none

/-- Consume an `" AND "`-joined sequence of primaries (fuel-bounded). -/
def takeConj : Nat → List Char → Option (List WExpr × List Char)
  | 0, _ => none
  | fuel + 1, cs =>
    match takePrimary cs with
    | none => none
    | some (e, cs1) =>
      match dropLit " AND ".toList cs1 with
      | some cs2 =>
        match takeConj fuel cs2 with
        | some (es, cs3) => some (e :: es, cs3)
        | none => none
      | none => some ([e], cs1)

/-- Parse a full predicate string into its conjuncts. -/
def parseWhere (w : String) : Option (List WExpr) :=
  match takeConj (w.length + 1) w.toList with
  | some (es, []) => some es
  | _ => none

/-- Meaning of a predicate string on a row: `none` when the string is not
in the emitted fragment, otherwise the conjunction of its conjuncts. -/
def evalWhere (w : String) (r : FeatureAttrs) : Option Bool :=
  (parseWhere w).map (fun es => es.all (evalW r))

/-! ## Helper lemmas -/

/-- Field lookup at the customer-material name. -/
theorem getFieldVal_customer (r : FeatureAttrs) :
    getFieldVal r "CustomerMaterial" = r.CustomerMaterial := rfl

/-- Field lookup at the supplier-material name. -/
theorem getFieldVal_supplier (r : FeatureAttrs) :
    getFieldVal r "SupplierMaterial" = r.SupplierMaterial := rfl

/-- Field lookup at the status name. -/
theorem getFieldVal_status (r : FeatureAttrs) :
    getFieldVal r "Status" = r.Status := rfl

/-- All code lists the classifier recognises. -/
def knownCodes : List String :=
  leadCodes ++ copperCodes ++ galvCodes ++ unknownCodes

/-! ## C4 — material classifier -/

/-- C4: the material classifier is total; matching is case-insensitive;
the known short codes map to their canonical labels, with absent/empty
input mapping to "Not determined"; every string outside the known code
lists is returned unchanged. -/
theorem C4_material_classifier :
    MATERIAL_LABEL none = "Not determined" ∧
    MATERIAL_LABEL (some "") = "Not determined" ∧
    MATERIAL_LABEL (some "pb") = "Lead" ∧
    MATERIAL_LABEL (some "PB") = "Lead" ∧
    MATERIAL_LABEL (some "l") = "Lead" ∧
    MATERIAL_LABEL (some "L") = "Lead" ∧
    MATERIAL_LABEL (some "cu") = "Copper" ∧
    MATERIAL_LABEL (some "Cu") = "Copper" ∧
    MATERIAL_LABEL (some "galv") = "Galvanized Steel" ∧
    MATERIAL_LABEL (some "GALV") = "Galvanized Steel" ∧
    MATERIAL_LABEL (some "unk") = "Not determined" ∧
    MATERIAL_LABEL (some "u") = "Not determined" ∧
    MATERIAL_LABEL (some "U") = "Not determined" ∧
    (∀ c1 c2 : String, jsToLower c1 = jsToLower c2 →
      materialClassOf c1 = materialClassOf c2) ∧
    (∀ c : String, knownCodes.contains (jsToLower c) = false →
      MATERIAL_LABEL (some c) = c) := by
  refine ⟨rfl, by decide, by decide, by decide, by decide, by decide,
    by decide, by decide, by decide, by decide, by decide, by decide,
    by decide, ?_, ?_⟩
  · intro c1 c2 h
    unfold materialClassOf
    rw [h]
  · intro c h
    have h4 : jsToLower c ∉ leadCodes ∧ jsToLower c ∉ copperCodes ∧
        jsToLower c ∉ galvCodes ∧ jsToLower c ∉ unknownCodes := by
      simpa [knownCodes, List.contains, List.elem_eq_mem, not_or] using h
    simp [MATERIAL_LABEL, List.contains, List.elem_eq_mem,
      h4.1, h4.2.1, h4.2.2.1, h4.2.2.2]

/-- C4 witness: an unrecognised code passes through unchanged, via the
final clause of the theorem at a concrete input. -/
theorem C4_material_classifier_witness :
    MATERIAL_LABEL (some "PVC") = "PVC" ∧
    materialClassOf "gAlV" = materialClassOf "GALV" :=
  ⟨C4_material_classifier.2.2.2.2.2.2.2.2.2.2.2.2.2.2 "PVC" (by decide),
   C4_material_classifier.2.2.2.2.2.2.2.2.2.2.2.2.2.1 "gAlV" "GALV" (by decide)⟩

/-! ## C5 — clause builder output and meaning -/

/-- C5: the "all materials, no status filter" selection yields `1=1`,
which evaluates to true on every row; the "lead" selection yields a
predicate true exactly on rows where either material field equals the lead
value; a material condition and a status condition are joined with
`" AND "`, the status condition being an `IN` clause over the literal
status list, and that combined predicate means the conjunction. -/
theorem C5_clause_builder :
    (∀ filters : FilterOptions, filters.material = .all →
      filters.status = none → buildWhereClause filters = "1=1") ∧
    (∀ r : FeatureAttrs, evalWhere "1=1" r = some true) ∧
    (∀ r : FeatureAttrs,
      evalWhere (buildWhereClause ⟨.lead, true, true, none⟩) r =
        some ((r.CustomerMaterial == some "Lead") ||
          (r.SupplierMaterial == some "Lead"))) ∧
    (∀ l : List String, l ≠ [] →
      buildWhereClause ⟨.lead, true, true, some l⟩ =
        leadClause ++ " AND " ++ statusClause l) ∧
    (∀ r : FeatureAttrs,
      evalWhere (buildWhereClause
          ⟨.lead, true, true, some ["VERIFIED", "ASSUMED"]⟩) r =
        some (((r.CustomerMaterial == some "Lead") ||
            (r.SupplierMaterial == some "Lead")) &&
          (match r.Status with
           | some v => List.contains ["VERIFIED", "ASSUMED"] v
           | none => false))) := by
  refine ⟨?_, ?_, ?_, ?_, ?_⟩
  · rintro ⟨m, sc, ss, stv⟩ h1 h2
    simp only at h1 h2
    subst h1; subst h2
    rfl
  · intro r
    have hp : parseWhere "1=1" = some [.true1] := by decide
    simp [evalWhere, hp, evalW]
  · intro r
    have hp : parseWhere (buildWhereClause ⟨.lead, true, true, none⟩) =
        some [.orEq "CustomerMaterial" "Lead" "SupplierMaterial" "Lead"] := by
      decide
    simp [evalWhere, hp, evalW, getFieldVal_customer, getFieldVal_supplier]
  · intro l hl
    cases l with
    | nil => exact absurd rfl hl
    | cons a as =>
      have h1 : (0 : Nat) < as.length + 1 := Nat.succ_pos _
      simp only [buildWhereClause, gt_iff_lt, List.length_cons, h1, if_true,
        List.singleton_append, List.length_cons, Nat.succ_pos]
      rfl
  · intro r
    have hp : parseWhere (buildWhereClause
        ⟨.lead, true, true, some ["VERIFIED", "ASSUMED"]⟩) =
        some [.orEq "CustomerMaterial" "Lead" "SupplierMaterial" "Lead",
          .inList "Status" ["VERIFIED", "ASSUMED"]] := by decide
    simp [evalWhere, hp, evalW, getFieldVal_customer, getFieldVal_supplier,
      getFieldVal_status]

/-- C5 witness: the hypothesis-bearing clauses at concrete inputs. -/
theorem C5_clause_builder_witness :
    buildWhereClause ⟨.all, true, true, none⟩ = "1=1" ∧
    buildWhereClause ⟨.lead, true, true, some ["VERIFIED"]⟩ =
      leadClause ++ " AND " ++ statusClause ["VERIFIED"] :=
  ⟨C5_clause_builder.1 ⟨.all, true, true, none⟩ rfl rfl,
   C5_clause_builder.2.2.2.1 ["VERIFIED"] (by decide)⟩

/-! ## C3 — interpolation of caller-supplied status values -/

/-- C1 counterexample: `isAuthenticated` is not equivalent to "token and
expiry present and expiry strictly in the future": with the empty string
as token (present, but falsy in JS) and a future expiry the code returns
false. -/
theorem C1_counterexample :
    ¬ ∀ (st : AuthState) (now : Int),
        isAuthenticated st now = true ↔
          st.accessToken.isSome = true ∧
          ∃ e, st.tokenExpiry = some e ∧ now < e := by
  intro h
  have := (h ⟨some "", none, some 5, none⟩ 0).mpr
    ⟨rfl, 5, rfl, by norm_num⟩
  exact absurd this (by decide)

/-- C1 amended: `isAuthenticated` is true iff the token is present and
truthy (non-empty) and the expiry is present and truthy (non-zero) and
strictly in the future; it is false on the freshly constructed state,
false after `logout`, and false whenever the expiry is not in the future
even though a token string is held; `getAccessToken` yields the token
exactly while authenticated; every query operation attaches exactly
`getAccessToken`, so a token is attached only while authenticated — never
an expired one. -/
theorem C1_credential_validity :
    (∀ now, isAuthenticated AuthState.init now = false) ∧
    (∀ st sess now, isAuthenticated (logout st sess).1 now = false) ∧
    (∀ st now e, st.tokenExpiry = some e → e ≤ now →
      isAuthenticated st now = false) ∧
    (∀ st now, isAuthenticated st now = true ↔
      (∃ t, st.accessToken = some t ∧ t ≠ "") ∧
      (∃ e, st.tokenExpiry = some e ∧ e ≠ 0 ∧ now < e)) ∧
    (∀ st now, getAccessToken st now =
      if isAuthenticated st now then st.accessToken else none) ∧
    (∀ st now filters o,
      (queryFeatures st now filters o).1.token = getAccessToken st now) ∧
    (∀ st now filters o t,
      (queryFeatures st now filters o).1.token = some t →
      isAuthenticated st now = true) ∧
    (∀ st now oid o t,
      (queryFeatureById st now oid o).1.token = some t →
      isAuthenticated st now = true) ∧
    (∀ st now filters o t,
      (queryFeaturesInExtent st now filters o).1.token = some t →
      isAuthenticated st now = true) ∧
    (∀ st now o t,
      (getFeatureStats st now o).1.token = some t →
      isAuthenticated st now = true) := by
  have hiff : ∀ (st : AuthState) (now : Int),
      isAuthenticated st now = true ↔
        (∃ t, st.accessToken = some t ∧ t ≠ "") ∧
        (∃ e, st.tokenExpiry = some e ∧ e ≠ 0 ∧ now < e) := by
    rintro ⟨tok, rt, exp, cv⟩ now
    cases tok <;> cases exp <;>
      simp [isAuthenticated, strTruthy, numTruthy]
    all_goals tauto
  have htok : ∀ (st : AuthState) (now : Int) (t : String),
      getAccessToken st now = some t → isAuthenticated st now = true := by
    intro st now t h
    by_cases ha : isAuthenticated st now = true
    · exact ha
    · rw [getAccessToken, if_neg ha] at h
      exact absurd h (by simp)
  refine ⟨?_, ?_, ?_, hiff, fun _ _ => rfl, fun _ _ _ _ => rfl,
    fun st now _ _ t h => htok st now t h,
    fun st now _ _ t h => htok st now t h,
    fun st now _ _ t h => htok st now t h,
    fun st now _ t h => htok st now t h⟩
  · intro now
    rfl
  · intro st sess now
    rfl
  · intro st now e he hle
    rcases h : isAuthenticated st now with _ | _
    · rfl
    · rcases (hiff st now).mp h with ⟨_, ⟨e2, he2, _, hlt⟩⟩
      rw [he] at he2
      cases he2
      omega

/-- C1 witness: the amended theorem at concrete states — an expired
credential is rejected, a live one accepted, the expired one yields no
token on the query path. -/
theorem C1_credential_validity_witness :
    isAuthenticated ⟨some "tok", none, some 5, none⟩ 10 = false ∧
    isAuthenticated ⟨some "tok", none, some 1000, none⟩ 10 = true ∧
    getAccessToken ⟨some "tok", none, some 5, none⟩ 10 =
      if isAuthenticated ⟨some "tok", none, some 5, none⟩ 10 then
        some "tok" else none :=
  ⟨C1_credential_validity.2.2.1 ⟨some "tok", none, some 5, none⟩ 10 5 rfl
      (by norm_num),
   (C1_credential_validity.2.2.2.1 ⟨some "tok", none, some 1000, none⟩ 10).mpr
      ⟨⟨"tok", rfl, by decide⟩, ⟨1000, rfl, by norm_num, by norm_num⟩⟩,
   C1_credential_validity.2.2.2.2.1 ⟨some "tok", none, some 5, none⟩ 10⟩

/-! ## C2 — token-exchange outcomes -/

/-- A failing fetch outcome: the fetch threw, or the provider reported an
error payload. -/
def errorFetch : QueryFetch → Prop
  | .netFail _ => True
  | .resp _ (.err _) => True
  | .resp _ (.feats _) => False

/-- C6: on every transport error or provider-reported error payload, the
two list operations propagate an error, query-by-identifier returns
"not found" (`none`), and the aggregate-stats operation returns the
all-zero stats object. -/
theorem C6_failure_asymmetry :
    ∀ (st : AuthState) (now : Int) (filters : FilterOptions) (oid : Int)
      (o : QueryFetch), errorFetch o →
      (∃ m, (queryFeatures st now filters o).2 = .error m) ∧
      (∃ m, (queryFeaturesInExtent st now filters o).2 = .error m) ∧
      (queryFeatureById st now oid o).2 = none ∧
      (getFeatureStats st now o).2 = zeroStats := by
  intro st now filters oid o ho
  match o with
  | .netFail m => exact ⟨⟨m, rfl⟩, ⟨m, rfl⟩, rfl, rfl⟩
  | .resp ok (.err m) =>
    refine ⟨?_, ⟨"ArcGIS Error: " ++ m, rfl⟩, rfl, rfl⟩
    cases ok
    · exact ⟨"Feature service query failed", rfl⟩
    · exact ⟨"ArcGIS Error: " ++ m, rfl⟩
  | .resp ok (.feats fs) => exact ho.elim

/-- C6 witness: the asymmetry at a concrete thrown fetch. -/
theorem C6_failure_asymmetry_witness :
    (∃ m, (queryFeatures AuthState.init 0 ⟨.all, true, true, none⟩
      (.netFail "boom")).2 = .error m) ∧
    (∃ m, (queryFeaturesInExtent AuthState.init 0 ⟨.all, true, true, none⟩
      (.netFail "boom")).2 = .error m) ∧
    (queryFeatureById AuthState.init 0 7 (.netFail "boom")).2 = none ∧
    (getFeatureStats AuthState.init 0 (.netFail "boom")).2 = zeroStats :=
  C6_failure_asymmetry AuthState.init 0 ⟨.all, true, true, none⟩ 7
    (.netFail "boom") trivial

/-! ## C7 — client-side aggregate counts -/

/-- A fixture feature with the given materials and status. -/
def mkFeat (i : Int) (cm sm stv : String) : Feature :=
  { attributes :=
      { OBJECTID := i, Address := some "addr", CustomerMaterial := some cm,
        SupplierMaterial := some sm, YearBuilt := some 1990,
        Status := some stv, LetterSent := .num 0 },
    geometry := none }

/-- A fixture of 10 records: 2 lead-affected, 3 unknown-affected,
5 verified, 2 assumed. -/
def statsFixture : List Feature :=
  [mkFeat 1 "Lead" "Copper" "VERIFIED",
   mkFeat 2 "Lead" "Copper" "VERIFIED",
   mkFeat 3 "Copper" "Unknown" "VERIFIED",
   mkFeat 4 "Copper" "Unknown" "VERIFIED",
   mkFeat 5 "Copper" "Unknown" "VERIFIED",
   mkFeat 6 "Copper" "Copper" "ASSUMED",
   mkFeat 7 "Copper" "Copper" "ASSUMED",
   mkFeat 8 "Copper" "Copper" "UNKNOWN",
   mkFeat 9 "Copper" "Copper" "UNKNOWN",
   mkFeat 10 "Copper" "Copper" "UNKNOWN"]

/-- C7: on a successful fetch the stats are computed client-side over the
full result set — total is the record count, lead/unknown count either-side
matches, verified/assumed count exact statuses; the counts are invariant
under reordering of the fetched records; and the fixed fixture yields
exactly (10, 2, 3, 5, 2). -/
theorem C7_stats_counts :
    (∀ (st : AuthState) (now : Int) (ok : Bool) (fs : List Feature),
      (getFeatureStats st now (.resp ok (.feats fs))).2 =
        { total := fs.length,
          lead := fs.countP (fun f => isLeadFeature f),
          unknown := fs.countP (fun f => isUnknownFeature f),
          verified := fs.countP
            (fun f => f.attributes.Status == some "VERIFIED"),
          assumed := fs.countP
            (fun f => f.attributes.Status == some "ASSUMED") }) ∧
    (∀ (st : AuthState) (now : Int) (ok ok2 : Bool)
      (fs fs2 : List Feature), fs.Perm fs2 →
      (getFeatureStats st now (.resp ok (.feats fs))).2 =
        (getFeatureStats st now (.resp ok2 (.feats fs2))).2) ∧
    (getFeatureStats AuthState.init 0 (.resp true (.feats statsFixture))).2 =
      { total := 10, lead := 2, unknown := 3, verified := 5, assumed := 2 } := by
  have hform : ∀ (st : AuthState) (now : Int) (ok : Bool)
      (fs : List Feature),
      (getFeatureStats st now (.resp ok (.feats fs))).2 =
        { total := fs.length,
          lead := fs.countP (fun f => isLeadFeature f),
          unknown := fs.countP (fun f => isUnknownFeature f),
          verified := fs.countP
            (fun f => f.attributes.Status == some "VERIFIED"),
          assumed := fs.countP
            (fun f => f.attributes.Status == some "ASSUMED") } := by
    intro st now ok fs
    simp [getFeatureStats, List.countP_eq_length_filter]
  refine ⟨hform, ?_, by decide⟩
  intro st now ok ok2 fs fs2 hperm
  rw [hform, hform]
  simp only [hperm.length_eq, hperm.countP_eq]

/-- C7 witness: permutation invariance applied to a concrete
transposition of the fixture's first two records. -/
theorem C7_stats_counts_witness :
    (getFeatureStats AuthState.init 0 (.resp true
      (.feats [mkFeat 1 "Lead" "Copper" "VERIFIED",
        mkFeat 6 "Copper" "Copper" "ASSUMED"]))).2 =
    (getFeatureStats AuthState.init 0 (.resp true
      (.feats [mkFeat 6 "Copper" "Copper" "ASSUMED",
        mkFeat 1 "Lead" "Copper" "VERIFIED"]))).2 :=
  C7_stats_counts.2.1 AuthState.init 0 true true _ _
    (List.Perm.swap (mkFeat 6 "Copper" "Copper" "ASSUMED")
      (mkFeat 1 "Lead" "Copper" "VERIFIED") [])

/-! ## C8 — client-side address narrowing -/

/-- C8: the client-side filter keeps exactly the input records whose
lowercased address contains the lowercased search term (every record when
the term is empty); the output is a sublist of the input, its length never
exceeds the input length, and the empty term returns the list
unchanged. -/
theorem C8_address_narrowing :
    ∀ (term : String) (locs : List Location),
      (∀ l, l ∈ filteredLocations term locs ↔
        l ∈ locs ∧ (term = "" ∨
          jsIncludes (jsToLower l.address) (jsToLower term) = true)) ∧
      (filteredLocations term locs).Sublist locs ∧
      (filteredLocations term locs).length ≤ locs.length ∧
      (term = "" → filteredLocations term locs = locs) := by
  intro term locs
  refine ⟨?_, List.filter_sublist locs, List.length_filter_le _ locs, ?_⟩
  · intro l
    simp only [filteredLocations, List.mem_filter]
    constructor
    · rintro ⟨hm, hp⟩
      refine ⟨hm, ?_⟩
      by_cases ht : term = ""
      · exact Or.inl ht
      · right
        by_contra hinc
        simp [ht, hinc] at hp
    · rintro ⟨hm, hp⟩
      refine ⟨hm, ?_⟩
      rcases hp with ht | hinc
      · simp [ht]
      · simp [hinc]
  · intro ht
    subst ht
    simp [filteredLocations, List.filter_eq_self]

/-- Two demonstration records for the C8 witness. -/
def oakLoc : Location :=
  { id := 1, address := "123 Oak Street", customerMaterial := "Lead",
    supplierMaterial := "Copper", letterSent := true, buildYear := 1950,
    status := "VERIFIED", lat := 42, lng := -87 }

def elmLoc : Location :=
  { id := 2, address := "9 Elm Court", customerMaterial := "Copper",
    supplierMaterial := "Copper", letterSent := false, buildYear := 1990,
    status := "ASSUMED", lat := 42, lng := -87 }

/-- C8 witness: the empty term returns the list unchanged, via the theorem
at a concrete list; the "Oak" narrowing on the concrete list keeps exactly
the matching record. -/
theorem C8_address_narrowing_witness :
    filteredLocations "" [oakLoc, elmLoc] = [oakLoc, elmLoc] ∧
    (oakLoc ∈ filteredLocations "oak" [oakLoc, elmLoc] ↔
      oakLoc ∈ [oakLoc, elmLoc] ∧ ("oak" = "" ∨
        jsIncludes (jsToLower oakLoc.address) (jsToLower "oak") = true)) :=
  ⟨(C8_address_narrowing "" [oakLoc, elmLoc]).2.2.2 rfl,
   (C8_address_narrowing "oak" [oakLoc, elmLoc]).1 oakLoc⟩

/-! ## C9 — geocoder minimum length, cap, best effort -/

/-- A failing geocode fetch outcome: thrown fetch, non-ok response, or an
error payload. -/
def errorGeoFetch : GeoFetch → Prop
  | .netFail _ => True
  | .resp false _ => True
  | .resp true (.err _) => True
  | .resp true (.cands _) => False

/-- C9: below 3 characters the geocoder returns an empty list and issues
no request; at 3 or more characters it issues a request capped at 10
candidates (carrying the search text and the bias point, defaulting to the
configured center); and on every failing outcome the result is the empty
list. -/
theorem C9_geocode_contract :
    (∀ (text : String) (center : Option GeoPoint) (o : GeoFetch),
      text.length < 3 → geocodeAddress text center o = (none, [])) ∧
    (∀ (text : String) (center : Option GeoPoint) (o : GeoFetch),
      3 ≤ text.length →
      (geocodeAddress text center o).1 =
        some { singleLine := text, maxLocations := 10,
               location := center.getD defaultCenter }) ∧
    (∀ (text : String) (center : Option GeoPoint) (o : GeoFetch),
      errorGeoFetch o → (geocodeAddress text center o).2 = []) := by
  refine ⟨?_, ?_, ?_⟩
  · intro text center o h
    simp [geocodeAddress, h]
  · intro text center o h
    have hne : text ≠ "" := by
      intro he
      rw [he] at h
      simp at h
    have hnl : ¬ text.length < 3 := by omega
    simp [geocodeAddress, hne, hnl]
  · intro text center o h
    unfold geocodeAddress
    split
    · rfl
    · match o with
      | .netFail m => rfl
      | .resp false body => rfl
      | .resp true (.err m) => rfl
      | .resp true (.cands cs) => exact h.elim

/-- C9 witness: a 2-character search is a no-op, a 6-character search
issues the capped request, and a thrown fetch yields the empty list. -/
theorem C9_geocode_contract_witness :
    geocodeAddress "ab" none (.netFail "down") = (none, []) ∧
    (geocodeAddress "Oak St" none (.netFail "down")).1 =
      some { singleLine := "Oak St", maxLocations := 10,
             location := defaultCenter } ∧
    (geocodeAddress "Oak St" none (.netFail "down")).2 = [] :=
  ⟨C9_geocode_contract.1 "ab" none (.netFail "down") (by decide),
   C9_geocode_contract.2.1 "Oak St" none (.netFail "down") (by decide),
   C9_geocode_contract.2.2 "Oak St" none (.netFail "down") trivial⟩

/-! ## C10 — normalization defaults of featureToLocation -/

/-- C10: the feature-to-location transformation is total and fills each
missing field with its fixed default independently of the other fields —
a missing address becomes "Unknown Address", a missing customer or
supplier material becomes "Unknown", a missing build year becomes 0, a
missing status becomes "UNKNOWN", missing geometry yields latitude 0 and
longitude 0 — and the notification flag is true exactly when the raw
value is the number 1 or the boolean true. -/
theorem C10_normalization_defaults :
    (∀ f : Feature, f.attributes.Address = none →
      (featureToLocation f).address = "Unknown Address") ∧
    (∀ f : Feature, f.attributes.CustomerMaterial = none →
      (featureToLocation f).customerMaterial = "Unknown") ∧
    (∀ f : Feature, f.attributes.SupplierMaterial = none →
      (featureToLocation f).supplierMaterial = "Unknown") ∧
    (∀ f : Feature, f.attributes.YearBuilt = none →
      (featureToLocation f).buildYear = 0) ∧
    (∀ f : Feature, f.attributes.Status = none →
      (featureToLocation f).status = "UNKNOWN") ∧
    (∀ f : Feature, f.geometry = none →
      (featureToLocation f).lat = 0 ∧ (featureToLocation f).lng = 0) ∧
    (∀ f : Feature, (featureToLocation f).letterSent = true ↔
      (f.attributes.LetterSent = JSVal.num 1 ∨
        f.attributes.LetterSent = JSVal.boolv true)) := by
  refine ⟨?_, ?_, ?_, ?_, ?_, ?_, ?_⟩
  · intro f h
    simp [featureToLocation, jsStrOr, h]
  · intro f h
    simp [featureToLocation, jsStrOr, h]
  · intro f h
    simp [featureToLocation, jsStrOr, h]
  · intro f h
    simp [featureToLocation, h]
  · intro f h
    simp [featureToLocation, jsStrOr, h]
  · intro f h
    simp [featureToLocation, h]
  · intro f
    simp [featureToLocation]

/-- C10 witness: each per-field default at a concrete feature missing
only that field (all other fields present), and the flag at the concrete
raw value `1`. -/
theorem C10_normalization_defaults_witness :
    (featureToLocation
      ⟨⟨42, none, some "Lead", some "Copper", some 1950, some "VERIFIED",
        JSVal.num 1⟩, some ⟨-87, 42⟩⟩).address = "Unknown Address" ∧
    (featureToLocation
      ⟨⟨42, some "1 Oak St", none, some "Copper", some 1950,
        some "VERIFIED", JSVal.num 1⟩,
        some ⟨-87, 42⟩⟩).customerMaterial = "Unknown" ∧
    (featureToLocation
      ⟨⟨42, some "1 Oak St", some "Lead", none, some 1950, some "VERIFIED",
        JSVal.num 1⟩, some ⟨-87, 42⟩⟩).supplierMaterial = "Unknown" ∧
    (featureToLocation
      ⟨⟨42, some "1 Oak St", some "Lead", some "Copper", none,
        some "VERIFIED", JSVal.num 1⟩, some ⟨-87, 42⟩⟩).buildYear = 0 ∧
    (featureToLocation
      ⟨⟨42, some "1 Oak St", some "Lead", some "Copper", some 1950, none,
        JSVal.num 1⟩, some ⟨-87, 42⟩⟩).status = "UNKNOWN" ∧
    ((featureToLocation
      ⟨⟨42, some "1 Oak St", some "Lead", some "Copper", some 1950,
        some "VERIFIED", JSVal.num 1⟩, none⟩).lat = 0 ∧
     (featureToLocation
      ⟨⟨42, some "1 Oak St", some "Lead", some "Copper", some 1950,
        some "VERIFIED", JSVal.num 1⟩, none⟩).lng = 0) ∧
    ((featureToLocation
      ⟨⟨42, some "1 Oak St", some "Lead", some "Copper", some 1950,
        some "VERIFIED", JSVal.num 1⟩, none⟩).letterSent = true ↔
      (JSVal.num 1 = JSVal.num 1 ∨ JSVal.num 1 = JSVal.boolv true)) :=
  ⟨C10_normalization_defaults.1 _ rfl,
   C10_normalization_defaults.2.1 _ rfl,
   C10_normalization_defaults.2.2.1 _ rfl,
   C10_normalization_defaults.2.2.2.1 _ rfl,
   C10_normalization_defaults.2.2.2.2.1 _ rfl,
   C10_normalization_defaults.2.2.2.2.2.1 _ rfl,
   C10_normalization_defaults.2.2.2.2.2.2 _⟩

end LeadService
